import Mathlib

/-!
Shallow embedding of the core of the multi-source social-media analytics
platform: the per-source rate limiter (`app/rate_limiter.py`), the retrying
collector contract (`src/collectors/base_collector.py`), the orchestrator
(`src/collectors/orchestrator.py`), the quality validator
(`src/storage/data_quality.py`) and the tiered storage pipeline
(`src/storage/data_pipeline.py`).

Numeric values are modelled over `Rat` (idealised real arithmetic in place of
Python floats; every constant appearing in the code is exactly representable).
Wall-clock instants are seconds since the epoch, as in `time.time()`.
Python dictionaries holding collected items are modelled as association
lists over a `PyVal` value type.  Fallible calls return `Except`/`Option`.
-/

/-- Model of a Python value stored in a collected item's payload dictionary.
`vdatetime` models a `datetime` object carrying an epoch instant; `vother`
models any other object (in particular one with no `len` and that is not a
`datetime`, so that `len(x)` and datetime subtraction raise on it). -/
inductive PyVal where
  | vnone
  | vint (n : Int)
  | vfloat (q : Rat)
  | vstr (s : String)
  | vdatetime (t : Rat)
  | vother
deriving DecidableEq

/-- A collected item: a Python dict, keys unique, insertion ordered. -/
abbrev PyDict := List (String × PyVal)

/-- Python truthiness (`if x:`) for the modelled values. -/
def pyTruthy : PyVal → Bool
  | .vnone => false
  | .vint n => n ≠ 0
  | .vfloat q => q ≠ 0
  | .vstr s => s ≠ ""
  | .vdatetime _ => true
  | .vother => true

/-- Python `data.get(k)`: `None` when the key is absent. -/
def pyGet (data : PyDict) (k : String) : PyVal :=
  (data.lookup k).getD .vnone

/-- Python `field in data and data[field] is not None`: how
`_check_completeness` counts a field as present. -/
def fieldPresent (data : PyDict) (f : String) : Bool :=
  match data.lookup f with
  | some v => v ≠ PyVal.vnone
  | none => false

/-- Embeds `DataQualityValidator._check_completeness`.  A required/optional
score is the fraction of fields present (guarded to 0 on an empty field
list), weighted 0.7 / 0.3; an empty (falsy) dict scores 0. -/
def check_completeness (data : PyDict) (required_fields optional_fields : List String) : Rat :=
  if data = [] then 0
  else
    let required_present : Nat := required_fields.countP (fun f => fieldPresent data f)
    let required_total : Nat := required_fields.length
    let optional_present : Nat := optional_fields.countP (fun f => fieldPresent data f)
    let optional_total : Nat := optional_fields.length
    let required_score : Rat := if required_total > 0 then (required_present : Rat) / required_total else 0
    let optional_score : Rat := if optional_total > 0 then (optional_present : Rat) / optional_total else 0
    required_score * (7/10) + optional_score * (3/10)

/-- Python `isinstance(v, (str, int))`. -/
def isStrOrInt : PyVal → Bool
  | .vstr _ => true
  | .vint _ => true
  | _ => false

/-- Python `isinstance(v, (int, float))`. -/
def isNumeric : PyVal → Bool
  | .vint _ => true
  | .vfloat _ => true
  | _ => false

/-- Python `isinstance(v, (int, float)) and v >= 0`. -/
def isNonnegNumeric : PyVal → Bool
  | .vint n => 0 ≤ n
  | .vfloat q => 0 ≤ q
  | _ => false

/-- The `score / checks if checks > 0 else 0.0` pattern shared by the
type-conformance and content-quality checkers: each performed check
contributes a pass/fail boolean. -/
def ratioOf (checks : List Bool) : Rat :=
  if checks.length > 0 then ((checks.countP id : Nat) : Rat) / checks.length else 0

/-- Embeds `DataQualityValidator._check_reddit_data_types`. -/
def check_reddit_data_types (data : PyDict) : Rat :=
  let checks : List Bool :=
    (match data.lookup "id" with | some v => [isStrOrInt v] | none => []) ++
    (match data.lookup "score" with | some v => [isNumeric v] | none => []) ++
    (match data.lookup "created_utc" with | some v => [isNumeric v] | none => [])
  ratioOf checks

/-- Python `len(v)`: defined on strings, raises `TypeError` otherwise
(the modelled non-string values have no `len`). -/
def pyLen : PyVal → Except Unit Nat
  | .vstr s => .ok s.length
  | _ => .error ()

/-- Embeds `DataQualityValidator._check_reddit_content_quality`.  The title
check runs `len(data[title])` on a truthy title, which raises on a
non-string value; the raise propagates to the caller. -/
def check_reddit_content_quality (data : PyDict) : Except Unit Rat := do
  let title_checks : List Bool ←
    match data.lookup "title" with
    | some v =>
        if pyTruthy v then do
          let n ← pyLen v
          pure [decide (5 ≤ n ∧ n ≤ 300)]
        else pure []
    | none => pure []
  let score_checks : List Bool :=
    match data.lookup "score" with
    | some v => [isNonnegNumeric v]
    | none => []
  pure (ratioOf (title_checks ++ score_checks))

/-- Abstract model of `datetime.fromisoformat` applied to the string after
the `Z` replacement (a standard-library collaborator): `some t` when the
string parses to the epoch instant `t`, `none` when parsing raises. -/
abbrev ParseFun := String → Option Rat

/-- Age step of `_check_timeliness` applied to a resolved instant:
`age_hours = (now - t) / 3600` scored 1.0 / 0.9 / 0.7 / 0.5. -/
def timeliness_step (now t : Rat) : Rat :=
  let age_hours := (now - t) / 3600
  if age_hours ≤ 1 then 1
  else if age_hours ≤ 24 then 9/10
  else if age_hours ≤ 168 then 7/10
  else 1/2

/-- Embeds `DataQualityValidator._check_timeliness`.  A falsy timestamp
returns 0.0 up front; numeric, parseable-string and datetime timestamps
resolve to an instant and take the age step; an unparseable string or a
non-datetime object raises inside the `try` and is caught, returning 0.5. -/
def check_timeliness (now : Rat) (parse : ParseFun) (timestamp : PyVal) : Rat :=
  if pyTruthy timestamp = false then 0
  else
    match timestamp with
    | .vnone => 0
    | .vint n => timeliness_step now (n : Rat)
    | .vfloat q => timeliness_step now q
    | .vstr s =>
        match parse s with
        | some t => timeliness_step now t
        | none => 1/2
    | .vdatetime t => timeliness_step now t
    | .vother => 1/2

/-- The instant a non-falsy timestamp value resolves to inside
`_check_timeliness`, when it resolves at all. -/
def timestampInstant (parse : ParseFun) : PyVal → Option Rat
  | .vnone => none
  | .vint n => some (n : Rat)
  | .vfloat q => some q
  | .vstr s => parse s
  | .vdatetime t => some t
  | .vother => none

/-- Result of `DataQualityValidator.validate_*_data` (the
`validation_timestamp` field, a wall-clock stamp, is omitted). -/
structure DataQualityResult where
  is_valid : Bool
  quality_score : Rat
  validation_errors : List String
  warnings : List String
deriving DecidableEq

/-- The `completeness` entry of `DataQualityValidator.thresholds`. -/
def completeness_threshold : Rat := 4/5

/-- Required fields for Reddit posts in `validate_reddit_data`. -/
def reddit_required : List String := ["id", "title", "author", "score", "created_utc"]

/-- Optional fields for Reddit posts in `validate_reddit_data`. -/
def reddit_optional : List String := ["selftext", "url", "subreddit", "num_comments"]

/-- Embeds `DataQualityValidator.validate_reddit_data`.  The four sub-scores
are averaged with equal weight; on the success path no validation error is
ever appended, so `is_valid` reduces to the threshold test; the only
raising sub-check is the content-quality one, whose raise lands in the
`except` branch (score 0.0, invalid, one recorded error). -/
def validate_reddit_data (now : Rat) (parse : ParseFun) (data : PyDict) : DataQualityResult :=
  let completeness_score := check_completeness data reddit_required reddit_optional
  let type_score := check_reddit_data_types data
  match check_reddit_content_quality data with
  | .error _ =>
      { is_valid := false, quality_score := 0,
        validation_errors := ["Validation error"], warnings := [] }
  | .ok content_score =>
      let timeliness_score := check_timeliness now parse (pyGet data "created_utc")
      let score := (completeness_score + type_score + content_score + timeliness_score) / 4
      { is_valid := decide (score ≥ completeness_threshold), quality_score := score,
        validation_errors := [], warnings := [] }

/-- Embeds `RateLimitConfig` from `app/rate_limiter.py` (defaults:
`burst_limit = 10`, `backoff_multiplier = 2.0`). -/
structure RateLimitConfig where
  requests_per_minute : Nat
  requests_per_hour : Nat
  requests_per_day : Nat
  burst_limit : Nat := 10
  backoff_multiplier : Rat := 2
deriving DecidableEq

/-- Mutable state of one `RateLimiter` (the three sliding windows and the
consecutive-failure counter; `last_request_time` is never read and is
omitted). -/
structure RateLimiterState where
  minute_times : List Rat
  hour_times : List Rat
  day_times : List Rat
  consecutive_failures : Nat
deriving DecidableEq

/-- Fresh `RateLimiter` state: empty windows, zero failures. -/
def initialRateLimiterState : RateLimiterState := ⟨[], [], [], 0⟩

/-- Embeds `RateLimiter._clean_old_requests`: keep timestamps strictly newer
than `now - max_age`. -/
def clean_old_requests (now max_age : Rat) (times : List Rat) : List Rat :=
  times.filter (fun t => t > now - max_age)

/-- The pruning performed inside `_can_make_request` (it mutates
`self.request_times`, so the caller sees the pruned windows). -/
def pruneWindows (now : Rat) (st : RateLimiterState) : RateLimiterState :=
  { st with
    minute_times := clean_old_requests now 60 st.minute_times
    hour_times := clean_old_requests now 3600 st.hour_times
    day_times := clean_old_requests now 86400 st.day_times }

/-- Embeds `RateLimiter._can_make_request`: prune, then require every window
to be strictly below its cap. -/
def can_make_request (cfg : RateLimitConfig) (now : Rat) (st : RateLimiterState) :
    Bool × RateLimiterState :=
  let st2 := pruneWindows now st
  (decide (st2.minute_times.length < cfg.requests_per_minute ∧
           st2.hour_times.length < cfg.requests_per_hour ∧
           st2.day_times.length < cfg.requests_per_day), st2)

/-- Embeds `RateLimiter._calculate_delay`.  `frac` models `time.time() % 1`,
a value in `[0, 1)`; the jitter is `base * 0.1 * (0.5 - frac)`. -/
def calculate_delay (cfg : RateLimitConfig) (frac : Rat) (failures : Nat) : Rat :=
  if failures = 0 then 0
  else
    let base_delay := min 60 (cfg.backoff_multiplier ^ failures)
    let jitter := base_delay * (1/10) * (1/2 - frac)
    max 1 (base_delay + jitter)

/-- The wait contributed by one non-empty window in `wait_if_needed`:
`span - (now - min(window))`; an empty window contributes nothing
(modelled as 0, which is absorbed since the accumulated delay starts at 0). -/
def windowWait (now span : Rat) (times : List Rat) : Rat :=
  match times with
  | [] => 0
  | t :: ts => span - (now - ts.foldl min t)

/-- Embeds `RateLimiter.wait_if_needed`, one locked call at wall-clock
instant `now`.  Returns the delay slept and the state after the call.
Note the source appends `current_time` — the instant captured on entry,
BEFORE the sleep — to every (pruned) window, so the recorded timestamp of a
delayed call precedes its admission instant `now + delay` by the whole
delay. -/
def wait_if_needed (cfg : RateLimitConfig) (now frac : Rat) (st : RateLimiterState) :
    Rat × RateLimiterState :=
  let checked := can_make_request cfg now st
  let st2 := checked.2
  let window_delay : Rat :=
    if checked.1 then 0
    else
      max 0 (max (windowWait now 60 st2.minute_times)
        (max (windowWait now 3600 st2.hour_times) (windowWait now 86400 st2.day_times)))
  let delay := max window_delay (calculate_delay cfg frac st2.consecutive_failures)
  (delay,
    { st2 with
      minute_times := st2.minute_times ++ [now]
      hour_times := st2.hour_times ++ [now]
      day_times := st2.day_times ++ [now] })

/-- Embeds `RateLimiter.record_success`: reset the failure counter. -/
def record_success (st : RateLimiterState) : RateLimiterState :=
  { st with consecutive_failures := 0 }

/-- Embeds `RateLimiter.record_failure`: bump the failure counter. -/
def record_failure (st : RateLimiterState) : RateLimiterState :=
  { st with consecutive_failures := st.consecutive_failures + 1 }

/-- The `reddit` entry of `APIRateLimiter.limiters`. -/
def redditConfig : RateLimitConfig :=
  { requests_per_minute := 60, requests_per_hour := 3600, requests_per_day := 86400 }

/-- The `news` entry of `APIRateLimiter.limiters`. -/
def newsConfig : RateLimitConfig :=
  { requests_per_minute := 1, requests_per_hour := 4, requests_per_day := 100 }

/-- The `twitter` entry of `APIRateLimiter.limiters`. -/
def twitterConfig : RateLimitConfig :=
  { requests_per_minute := 1, requests_per_hour := 2, requests_per_day := 50 }

/-- Exception raised out of `collect_with_retry`: the source re-raises the
underlying exception itself; the `collectionError` shape (source, cause,
attempt count) is the wrapper the specification describes. -/
inductive CollectorError where
  | underlying (code : Nat)
  | collectionError (source : String) (cause : Nat) (attempts : Nat)
deriving DecidableEq

/-- Recognises the wrapped `CollectionError{source, cause, attempts}` shape. -/
def isCollectionError : CollectorError → Bool
  | .collectionError _ _ _ => true
  | _ => false

deriving instance DecidableEq for Except

/-- Observable outcome of one `collect_with_retry` call: the value returned
or exception raised (`ok none` models Python's implicit `None` return when
`max_retries = 0` lets the loop body never run), the backoff sleeps taken
between attempts, and how many `collect_data` attempts were made. -/
structure RetryOutcome (β : Type) where
  result : Except CollectorError (Option (List β))
  sleeps : List Rat
  attempts_made : Nat
deriving DecidableEq

/-- The retry loop of `BaseCollector.collect_with_retry`: `attempt` is the
current 0-based attempt index, the second argument the number of loop
iterations left.  A successful attempt filters items through
`validate_data` (invalid items silently dropped) and maps `transform_data`,
preserving order.  A failed attempt re-raises its exception when it is the
last one, and otherwise sleeps `2 ** attempt` seconds and retries. -/
def retryLoop (collect : Nat → Except CollectorError (List α)) (validate : α → Bool)
    (transform : α → β) (attempt : Nat) : Nat → RetryOutcome β
  | 0 => ⟨.ok none, [], 0⟩
  | remaining + 1 =>
    match collect attempt with
    | .ok raw => ⟨.ok (some ((raw.filter validate).map transform)), [], 1⟩
    | .error e =>
        if remaining = 0 then ⟨.error e, [], 1⟩
        else
          let rest := retryLoop collect validate transform (attempt + 1) remaining
          ⟨rest.result, (2 : Rat) ^ attempt :: rest.sleeps, rest.attempts_made + 1⟩

/-- Embeds `BaseCollector.collect_with_retry` (the initial
`rate_limit_delay` pacing sleep, metrics and logging do not affect the
outcome and are omitted; the outer `except` block re-raises unchanged). -/
def collect_with_retry (collect : Nat → Except CollectorError (List α)) (validate : α → Bool)
    (transform : α → β) (max_retries : Nat) : RetryOutcome β :=
  retryLoop collect validate transform 0 max_retries

/-- Parameters of one source's collection request (`collection_config`
entry): the query / subreddit shaping plus the per-source limit. -/
structure CollectionParams where
  query : Option String := none
  subreddit : Option String := none
  limit : Nat
deriving DecidableEq

/-- One registered collector, observed at the orchestrator boundary as what
its `collect_with_retry` returns (or raises) for given parameters. -/
abbrev CollectorFun (α : Type) := CollectionParams → Except Unit (List α)

/-- The indexed result-assembly loop of `collect_all_data`:
`for i, (collector_name, collector) in enumerate(self.collectors.items())`.
A configured name reads `collection_results[i]`; an out-of-range index is an
uncaught `IndexError`, modelled as `none`.  An exception result maps the
source to an empty list and records it among the failed collectors. -/
def gatherLoop (config : List (String × CollectionParams))
    (collection_results : List (Except Unit (List α))) :
    Nat → List (String × CollectorFun α) → List (String × List α) → List String →
    Option (List (String × List α) × List String)
  | _, [], acc, failed => some (acc, failed)
  | i, (name, _) :: rest, acc, failed =>
    if (config.lookup name).isSome then
      match collection_results.get? i with
      | none => none
      | some (.error _) => gatherLoop config collection_results (i + 1) rest (acc ++ [(name, [])]) (failed ++ [name])
      | some (.ok items) => gatherLoop config collection_results (i + 1) rest (acc ++ [(name, items)]) failed
    else gatherLoop config collection_results (i + 1) rest acc failed

/-- Embeds `DataCollectionOrchestrator.collect_all_data` with an explicit
configuration.  An empty registry returns an empty map at once.  Tasks are
launched for registry entries whose name appears in the configuration, in
registry order, and gathered with exceptions returned as data; the
assembly loop then walks the registry by index.  The `if collection_tasks:`
guard is behaviourally redundant (with no tasks the loop adds nothing) and
is not modelled separately.  Returns the result map together with the
run's `failed_collectors` list; `none` models an uncaught error escaping
the call. -/
def collect_all_data (registry : List (String × CollectorFun α))
    (config : List (String × CollectionParams)) :
    Option (List (String × List α) × List String) :=
  if registry.isEmpty then some ([], [])
  else
    let tasks := registry.filter (fun p => (config.lookup p.1).isSome)
    let collection_results := tasks.map (fun p =>
      match config.lookup p.1 with
      | some ps => p.2 ps
      | none => .error ())
    gatherLoop config collection_results 0 registry [] []

/-- The configuration built by `collect_technology_data`: a fixed division
of the limit by 3 with a floor of 10, for the three fixed source names. -/
def technologyConfig (limit : Nat) : List (String × CollectionParams) :=
  [("twitter", { query := some "#technology OR #AI OR #machinelearning", limit := max (limit / 3) 10 }),
   ("reddit", { subreddit := some "technology", limit := max (limit / 3) 10 }),
   ("news", { query := some "artificial intelligence technology", limit := max (limit / 3) 10 })]

/-- Embeds `DataCollectionOrchestrator.collect_technology_data`. -/
def collect_technology_data (registry : List (String × CollectorFun α)) (limit : Nat) :
    Option (List (String × List α) × List String) :=
  collect_all_data registry (technologyConfig limit)

/-- The configuration built by `collect_trending_data`: the same fixed
division of the limit by 3 with a floor of 10. -/
def trendingConfig (limit : Nat) : List (String × CollectionParams) :=
  [("twitter", { limit := max (limit / 3) 10 }),
   ("reddit", { subreddit := some "technology", limit := max (limit / 3) 10 }),
   ("news", { limit := max (limit / 3) 10 })]

/-- Embeds `DataCollectionOrchestrator.collect_trending_data`. -/
def collect_trending_data (registry : List (String × CollectorFun α)) (limit : Nat) :
    Option (List (String × List α) × List String) :=
  collect_all_data registry (trendingConfig limit)

/-- A storage tier of the data lake. -/
inductive Tier where
  | bronze
  | silver
  | gold
deriving DecidableEq

/-- Fault model for the storage collaborator inside one source run:
`ok t i` tells whether the store call at tier `t` for the item at index `i`
returns normally (`false` models the call raising). -/
structure StoreOracle where
  ok : Tier → Nat → Bool

/-- Observable outcome of `DataPipeline._process_source_data` on one
source's items.  Stored ids are modelled by the item index; `store_calls`
records every storage invocation `(tier, item index)` that was made,
whether or not it succeeded. -/
structure SourceRunResult where
  bronze_ids : List Nat
  silver_ids : List Nat
  gold_ids : List Nat
  quality_results : List DataQualityResult
  store_calls : List (Tier × Nat)
deriving DecidableEq

/-- The empty source-run outcome. -/
def emptySourceRun : SourceRunResult := ⟨[], [], [], [], []⟩

/-- Concatenation of source-run outcomes (the loop appends to each list). -/
def appendRun (a b : SourceRunResult) : SourceRunResult :=
  ⟨a.bronze_ids ++ b.bronze_ids, a.silver_ids ++ b.silver_ids, a.gold_ids ++ b.gold_ids,
   a.quality_results ++ b.quality_results, a.store_calls ++ b.store_calls⟩

/-- One iteration of the per-item loop of `_process_source_data`, for the
item at index `i`.  Any raising store call is caught by the per-item
`except`, which logs and continues: the appends after the raise are
skipped.  Bronze is stored first; the quality result is appended before the
Silver store; Gold is attempted exactly when the Silver store returned and
the item is valid. -/
def processItem (oracle : StoreOracle) (vf : PyDict → DataQualityResult) (i : Nat)
    (item : PyDict) : SourceRunResult :=
  if oracle.ok .bronze i = false then
    { emptySourceRun with store_calls := [(.bronze, i)] }
  else
    let q := vf item
    if oracle.ok .silver i = false then
      ⟨[i], [], [], [q], [(.bronze, i), (.silver, i)]⟩
    else if q.is_valid then
      if oracle.ok .gold i = false then
        ⟨[i], [i], [], [q], [(.bronze, i), (.silver, i), (.gold, i)]⟩
      else
        ⟨[i], [i], [i], [q], [(.bronze, i), (.silver, i), (.gold, i)]⟩
    else
      ⟨[i], [i], [], [q], [(.bronze, i), (.silver, i)]⟩

/-- The per-item loop of `_process_source_data`, items numbered from `i`. -/
def processItems (oracle : StoreOracle) (vf : PyDict → DataQualityResult) :
    Nat → List PyDict → SourceRunResult
  | _, [] => emptySourceRun
  | i, item :: rest => appendRun (processItem oracle vf i item) (processItems oracle vf (i + 1) rest)

/-- Embeds `DataPipeline._process_source_data` (the trailing
`get_quality_summary` call is total and does not change the stored ids). -/
def process_source_data (oracle : StoreOracle) (vf : PyDict → DataQualityResult)
    (items : List PyDict) : SourceRunResult :=
  processItems oracle vf 0 items

/-- The per-source layer maps and error list assembled by
`DataPipeline._process_and_store_data`. -/
structure PipelineLayerResults where
  bronze_layer : List (String × List Nat)
  silver_layer : List (String × List Nat)
  gold_layer : List (String × List Nat)
  errors : List String
deriving DecidableEq

/-- Embeds `DataPipeline._process_and_store_data`.  A source with no items
is skipped (`if not data_items: continue`).  The surrounding per-source
`except` only fires when `_process_source_data` itself raises; in the model
that call is total (its only raising steps are the per-item store calls,
each caught by the per-item handler), so the run's error list never
receives an entry for a failed item store. -/
def process_and_store_data (oracle : String → StoreOracle)
    (vf : String → PyDict → DataQualityResult) :
    List (String × List PyDict) → PipelineLayerResults
  | [] => ⟨[], [], [], []⟩
  | (source, items) :: rest =>
    let r := process_and_store_data oracle vf rest
    if items = [] then r
    else
      let sr := process_source_data (oracle source) (vf source) items
      ⟨(source, sr.bronze_ids) :: r.bronze_layer,
       (source, sr.silver_ids) :: r.silver_layer,
       (source, sr.gold_ids) :: r.gold_layer,
       r.errors⟩

/-- An empty value in the sense of the specification's completeness wording
(an empty string; the other modelled values are never "empty"). -/
def pyEmpty : PyVal → Bool
  | .vstr s => s = ""
  | _ => false

/-- Modelled from the spec sentence for completeness, for comparison with
the source's `fieldPresent`: "A field present means it exists in the item
and is not null/empty." -/
def fieldPresentSpec (data : PyDict) (f : String) : Bool :=
  match data.lookup f with
  | some v => v ≠ PyVal.vnone ∧ pyEmpty v = false
  | none => false

/-- Modelled from the spec sentence: "Completeness = 0.7 × (required fields
present ÷ required count) + 0.3 × (optional fields present ÷ optional
count)", with presence per `fieldPresentSpec`. -/
def check_completeness_spec (data : PyDict) (required_fields optional_fields : List String) : Rat :=
  (7/10) * ((required_fields.countP (fun f => fieldPresentSpec data f) : Rat) / required_fields.length)
    + (3/10) * ((optional_fields.countP (fun f => fieldPresentSpec data f) : Rat) / optional_fields.length)

lemma fieldPresent_nil (f : String) : fieldPresent [] f = false := rfl

lemma countP_fieldPresent_nil (l : List String) :
    l.countP (fun f => fieldPresent [] f) = 0 := by
  apply List.countP_eq_zero.mpr
  intro f _
  simp [fieldPresent_nil]

/-- C7 (counterexample).  The claim's notion of presence excludes empty
values, but `_check_completeness` only excludes `None`: on a Reddit item
whose title is the empty string the source scores the title as present
(completeness 0.7) while the claimed formula does not (completeness 14/25),
so the claimed equality fails at this item. -/
theorem c7_counterexample :
    check_completeness
        [("id", PyVal.vint 1), ("title", PyVal.vstr ""), ("author", PyVal.vstr "x"),
         ("score", PyVal.vint 5), ("created_utc", PyVal.vint 9)]
        reddit_required reddit_optional = 7/10
  ∧ check_completeness_spec
        [("id", PyVal.vint 1), ("title", PyVal.vstr ""), ("author", PyVal.vstr "x"),
         ("score", PyVal.vint 5), ("created_utc", PyVal.vint 9)]
        reddit_required reddit_optional = 14/25
  ∧ ¬ ((7 : Rat)/10 = 14/25) := by
  have h1 : List.countP
      (fun f => fieldPresent
        [("id", PyVal.vint 1), ("title", PyVal.vstr ""), ("author", PyVal.vstr "x"),
         ("score", PyVal.vint 5), ("created_utc", PyVal.vint 9)] f) reddit_required = 5 := by decide
  have h2 : List.countP
      (fun f => fieldPresent
        [("id", PyVal.vint 1), ("title", PyVal.vstr ""), ("author", PyVal.vstr "x"),
         ("score", PyVal.vint 5), ("created_utc", PyVal.vint 9)] f) reddit_optional = 0 := by decide
  have h3 : List.countP
      (fun f => fieldPresentSpec
        [("id", PyVal.vint 1), ("title", PyVal.vstr ""), ("author", PyVal.vstr "x"),
         ("score", PyVal.vint 5), ("created_utc", PyVal.vint 9)] f) reddit_required = 4 := by decide
  have h4 : List.countP
      (fun f => fieldPresentSpec
        [("id", PyVal.vint 1), ("title", PyVal.vstr ""), ("author", PyVal.vstr "x"),
         ("score", PyVal.vint 5), ("created_utc", PyVal.vint 9)] f) reddit_optional = 0 := by decide
  refine ⟨?_, ?_, by norm_num⟩
  · simp only [check_completeness, h1, h2]
    rw [if_neg (by decide)]
    norm_num [reddit_required, reddit_optional]
  · simp only [check_completeness_spec, h3, h4]
    norm_num [reddit_required, reddit_optional]

/-- C7 (amended).  For every item and any required/optional field lists (in
particular those of each source kind), `_check_completeness` equals
0.7 × (required fields present ÷ required count) + 0.3 × (optional fields
present ÷ optional count), where a field counts as present exactly when it
exists in the item and its value is not `None` — an empty value still
counts as present. -/
theorem c7_amended (data : PyDict) (req opt : List String) :
    check_completeness data req opt
      = (7/10) * ((req.countP (fun f => fieldPresent data f) : Rat) / req.length)
        + (3/10) * ((opt.countP (fun f => fieldPresent data f) : Rat) / opt.length) := by
  unfold check_completeness
  split
  · next h =>
    subst h
    simp [countP_fieldPresent_nil]
  · next h =>
    dsimp only
    split_ifs with h1 h2 h2
    · ring
    · have hl : opt.length = 0 := by omega
      have hc : List.countP (fun f => fieldPresent data f) opt = 0 := by
        have := List.countP_le_length (p := fun f => fieldPresent data f) (l := opt)
        omega
      rw [hl, hc]
      norm_num
      ring
    · have hl : req.length = 0 := by omega
      have hc : List.countP (fun f => fieldPresent data f) req = 0 := by
        have := List.countP_le_length (p := fun f => fieldPresent data f) (l := req)
        omega
      rw [hl, hc]
      norm_num
      ring
    · have hlr : req.length = 0 := by omega
      have hlo : opt.length = 0 := by omega
      have hcr : List.countP (fun f => fieldPresent data f) req = 0 := by
        have := List.countP_le_length (p := fun f => fieldPresent data f) (l := req)
        omega
      have hco : List.countP (fun f => fieldPresent data f) opt = 0 := by
        have := List.countP_le_length (p := fun f => fieldPresent data f) (l := opt)
        omega
      rw [hlr, hlo, hcr, hco]
      norm_num

lemma timeliness_step_le_one (now t : Rat) (h : (now - t) / 3600 ≤ 1) :
    timeliness_step now t = 1 := by
  unfold timeliness_step
  rw [if_pos h]

lemma timeliness_step_day (now t : Rat) (h24 : (now - t) / 3600 ≤ 24)
    (h1 : ¬ (now - t) / 3600 ≤ 1) : timeliness_step now t = 9/10 := by
  unfold timeliness_step
  rw [if_neg h1, if_pos h24]

lemma timeliness_step_week (now t : Rat) (h168 : (now - t) / 3600 ≤ 168)
    (h24 : ¬ (now - t) / 3600 ≤ 24) : timeliness_step now t = 7/10 := by
  unfold timeliness_step
  have h1 : ¬ (now - t) / 3600 ≤ 1 := by intro h; exact h24 (le_trans h (by norm_num))
  rw [if_neg h1, if_neg h24, if_pos h168]

lemma timeliness_step_old (now t : Rat) (h168 : ¬ (now - t) / 3600 ≤ 168) :
    timeliness_step now t = 1/2 := by
  unfold timeliness_step
  have h24 : ¬ (now - t) / 3600 ≤ 24 := by intro h; exact h168 (le_trans h (by norm_num))
  have h1 : ¬ (now - t) / 3600 ≤ 1 := by intro h; exact h24 (le_trans h (by norm_num))
  rw [if_neg h1, if_neg h24, if_neg h168]

/-- C6 (counterexample).  The claim (and the spec sentence it quotes) says
an unparseable timestamp scores 0.0, but `_check_timeliness` catches the
parse exception and returns 0.5: on an item whose timestamp is a non-empty
string `fromisoformat` rejects, the sub-score is 1/2, not 0. -/
theorem c6_counterexample :
    check_timeliness 0 (fun _ => none) (PyVal.vstr "not-a-timestamp") = 1/2
  ∧ ¬ ((1 : Rat)/2 = 0) := by
  constructor
  · rfl
  · norm_num

/-- C6 (amended).  The timeliness sub-score is the claimed step function of
item age for every timestamp that resolves to an instant (numeric,
parseable ISO string, or datetime): age ≤ 1h → 1.0, ≤ 24h → 0.9,
≤ 168h → 0.7, older → 0.5.  A missing or falsy timestamp scores 0.0; an
UNPARSEABLE string — or a non-datetime object — raises inside the `try`
and scores 0.5, not 0.0 as claimed. -/
theorem c6_amended (now : Rat) (parse : ParseFun) (v : PyVal) :
    (pyTruthy v = false → check_timeliness now parse v = 0)
  ∧ (∀ t : Rat, pyTruthy v = true → timestampInstant parse v = some t →
      ((now - t) / 3600 ≤ 1 → check_timeliness now parse v = 1)
    ∧ ((now - t) / 3600 ≤ 24 → ¬ (now - t) / 3600 ≤ 1 → check_timeliness now parse v = 9/10)
    ∧ ((now - t) / 3600 ≤ 168 → ¬ (now - t) / 3600 ≤ 24 → check_timeliness now parse v = 7/10)
    ∧ (¬ (now - t) / 3600 ≤ 168 → check_timeliness now parse v = 1/2))
  ∧ (∀ s, v = PyVal.vstr s → pyTruthy v = true → parse s = none →
      check_timeliness now parse v = 1/2)
  ∧ (v = PyVal.vother → check_timeliness now parse v = 1/2) := by
  refine ⟨?_, ?_, ?_, ?_⟩
  · intro hf
    unfold check_timeliness
    rw [if_pos hf]
  · intro t ht hinst
    have hstep : check_timeliness now parse v = timeliness_step now t := by
      cases v with
      | vnone => simp [timestampInstant] at hinst
      | vint n =>
        simp only [timestampInstant, Option.some.injEq] at hinst
        subst hinst
        unfold check_timeliness
        rw [if_neg (by simp [ht])]
      | vfloat q =>
        simp only [timestampInstant, Option.some.injEq] at hinst
        subst hinst
        unfold check_timeliness
        rw [if_neg (by simp [ht])]
      | vstr s =>
        simp only [timestampInstant] at hinst
        unfold check_timeliness
        rw [if_neg (by simp [ht])]
        dsimp only
        rw [hinst]
      | vdatetime u =>
        simp only [timestampInstant, Option.some.injEq] at hinst
        subst hinst
        unfold check_timeliness
        rw [if_neg (by simp [ht])]
      | vother => simp [timestampInstant] at hinst
    refine ⟨?_, ?_, ?_, ?_⟩
    · intro h; rw [hstep]; exact timeliness_step_le_one now t h
    · intro h24 h1; rw [hstep]; exact timeliness_step_day now t h24 h1
    · intro h168 h24; rw [hstep]; exact timeliness_step_week now t h168 h24
    · intro h168; rw [hstep]; exact timeliness_step_old now t h168
  · intro s hv ht hp
    subst hv
    unfold check_timeliness
    rw [if_neg (by simp [ht])]
    simp [hp]
  · intro hv
    subst hv
    rfl

/-- C6 (witness): the amended theorem applied at concrete inputs — a falsy
(empty-string) timestamp scores 0, and a numeric timestamp exactly one hour
old scores 1. -/
theorem c6_witness :
    check_timeliness 5 (fun _ => none) (PyVal.vstr "") = 0
  ∧ check_timeliness 7200 (fun _ => none) (PyVal.vint 3600) = 1 := by
  constructor
  · exact (c6_amended 5 (fun _ => none) (PyVal.vstr "")).1 (by decide)
  · exact (((c6_amended 7200 (fun _ => none) (PyVal.vint 3600)).2.1 3600
      (by decide) (by simp [timestampInstant])).1 (by norm_num))

/-- C8 (confirmed).  For the per-source limiters (all configured with
backoff multiplier 2), the backoff delay for `k > 0` consecutive failures
stays within ±10% of `min(60, 2^k)` (the implemented jitter is in fact
within ±5%, and the `max(1, ...)` floor is inactive since the base is at
least 2); with zero failures the delay is the baseline 0; and
`record_success` resets the failure counter to 0 no matter how many
`record_failure` calls preceded it. -/
theorem c8_backoff_and_reset (cfg : RateLimitConfig) (hm : cfg.backoff_multiplier = 2)
    (k : Nat) (hk : 0 < k) (frac : Rat) (h0 : 0 ≤ frac) (h1 : frac < 1) :
    |calculate_delay cfg frac k - min 60 ((2 : Rat) ^ k)| ≤ (1/10) * min 60 ((2 : Rat) ^ k)
  ∧ calculate_delay cfg frac 0 = 0
  ∧ ∀ st : RateLimiterState,
      (record_success (record_failure^[k] st)).consecutive_failures = 0 := by
  refine ⟨?_, rfl, fun st => rfl⟩
  unfold calculate_delay
  rw [if_neg (Nat.pos_iff_ne_zero.mp hk), hm]
  dsimp only
  set b : Rat := min 60 ((2 : Rat) ^ k) with hb
  have hb2 : 2 ≤ b := by
    refine le_min (by norm_num) ?_
    calc (2 : Rat) = 2 ^ 1 := by norm_num
    _ ≤ 2 ^ k := pow_le_pow_right₀ (by norm_num) hk
  have hjab : |b * (1/10) * (1/2 - frac)| ≤ b / 20 := by
    rw [abs_mul, abs_of_nonneg (by positivity : (0:Rat) ≤ b * (1/10))]
    have habs : |1/2 - frac| ≤ 1/2 := abs_le.mpr ⟨by linarith, by linarith⟩
    calc b * (1/10) * |1/2 - frac| ≤ b * (1/10) * (1/2) := by
          apply mul_le_mul_of_nonneg_left habs (by positivity)
    _ = b / 20 := by ring
  obtain ⟨hjlo, hjhi⟩ := abs_le.mp hjab
  have hfloor : max 1 (b + b * (1/10) * (1/2 - frac)) = b + b * (1/10) * (1/2 - frac) := by
    apply max_eq_right
    nlinarith
  rw [hfloor]
  rw [abs_le]
  constructor <;> nlinarith

/-- C8 (witness): the theorem applied to the news limiter with 2 consecutive
failures and jitter fraction 0. -/
theorem c8_witness :
    |calculate_delay newsConfig 0 2 - min 60 ((2 : Rat) ^ 2)| ≤ (1/10) * min 60 ((2 : Rat) ^ 2)
  ∧ (record_success (record_failure^[2] initialRateLimiterState)).consecutive_failures = 0 := by
  refine ⟨(c8_backoff_and_reset newsConfig rfl 2 (by norm_num) 0 le_rfl (by norm_num)).1,
    (c8_backoff_and_reset newsConfig rfl 2 (by norm_num) 0 le_rfl (by norm_num)).2.2
      initialRateLimiterState⟩

/-- C4 (code bug).  `wait_if_needed` records `current_time` — captured
BEFORE the sleep — into the windows, so a delayed call is logged at its
arrival instant, not its admission instant.  On the news limiter (cap 1
per minute) with serialized calls arriving at t = 0, t = 1 and
t = 86400 (the instant the second call's sleep ends and the lock frees),
the admissions happen at t = 0, t = 86400 and t = 86400: the last two land
in one rolling 60-second window, exceeding the per-minute cap of 1.  (The
second call's 86399 s delay also shows the delay computation taking the
day-window term even though only the minute window is at capacity.) -/
theorem c4_stale_timestamp_breaks_window_cap :
    (wait_if_needed newsConfig 0 0 initialRateLimiterState).1 = 0
  ∧ (wait_if_needed newsConfig 1 0
      (wait_if_needed newsConfig 0 0 initialRateLimiterState).2).1 = 86399
  ∧ (wait_if_needed newsConfig 86400 0
      (wait_if_needed newsConfig 1 0
        (wait_if_needed newsConfig 0 0 initialRateLimiterState).2).2).1 = 0
  ∧ List.countP (fun a : Rat => decide (86340 < a ∧ a ≤ 86400)) [0, 86400, 86400] = 2
  ∧ newsConfig.requests_per_minute = 1 := by
  have s1 : wait_if_needed newsConfig 0 0 initialRateLimiterState
      = (0, ⟨[0], [0], [0], 0⟩) := by
    norm_num [wait_if_needed, can_make_request, pruneWindows, clean_old_requests, windowWait,
      calculate_delay, newsConfig, initialRateLimiterState]
  have s2 : wait_if_needed newsConfig 1 0 ⟨[0], [0], [0], 0⟩
      = (86399, ⟨[0, 1], [0, 1], [0, 1], 0⟩) := by
    norm_num [wait_if_needed, can_make_request, pruneWindows, clean_old_requests, windowWait,
      calculate_delay, newsConfig]
  have s3 : wait_if_needed newsConfig 86400 0 ⟨[0, 1], [0, 1], [0, 1], 0⟩
      = (0, ⟨[86400], [86400], [1, 86400], 0⟩) := by
    norm_num [wait_if_needed, can_make_request, pruneWindows, clean_old_requests, windowWait,
      calculate_delay, newsConfig]
  refine ⟨by rw [s1], by rw [s1, s2], by rw [s1, s2, s3], ?_, rfl⟩
  have hin : (decide ((86340 : Rat) < 86400 ∧ (86400 : Rat) ≤ 86400)) = true := by
    norm_num
  have hout : (decide ((86340 : Rat) < 0 ∧ (0 : Rat) ≤ 86400)) = false := by
    norm_num
  simp only [List.countP, List.countP.go, hin, hout]
  norm_num

/-- C10 (counterexample).  The convenience operations divide by a hardcoded
3, not by the number of registered sources: with a registry holding exactly
one source (reddit) and limit 90, the claim's per-source limit is
`max(90 / 1, 10) = 90`, but the collector observably receives
`max(90 // 3, 10) = 30` (the registered collector echoes back the limit it
was called with). -/
theorem c10_counterexample :
    collect_technology_data (α := Nat) [("reddit", fun p => .ok [p.limit])] 90
      = some ([("reddit", [30])], [])
  ∧ max (90 / 1) 10 = 90
  ∧ (30 : Nat) ≠ 90 := by
  refine ⟨?_, by norm_num, by norm_num⟩
  decide

/-- C10 (amended).  `collect_technology_data` and `collect_trending_data`
are pure configuration builders that delegate to `collect_all_data` with a
fixed three-entry configuration (twitter, reddit, news — whether or not
those sources are registered), assigning every entry the per-source limit
`max(limit // 3, 10)`: the divisor is the constant 3, not the number of
registered sources. -/
theorem c10_amended (α : Type) (registry : List (String × CollectorFun α)) (limit : Nat) :
    collect_technology_data registry limit = collect_all_data registry (technologyConfig limit)
  ∧ collect_trending_data registry limit = collect_all_data registry (trendingConfig limit)
  ∧ (technologyConfig limit).map (fun p => p.1) = ["twitter", "reddit", "news"]
  ∧ (trendingConfig limit).map (fun p => p.1) = ["twitter", "reddit", "news"]
  ∧ (technologyConfig limit).map (fun p => p.2.limit)
      = [max (limit / 3) 10, max (limit / 3) 10, max (limit / 3) 10]
  ∧ (trendingConfig limit).map (fun p => p.2.limit)
      = [max (limit / 3) 10, max (limit / 3) 10, max (limit / 3) 10] := by
  exact ⟨rfl, rfl, rfl, rfl, rfl, rfl⟩

lemma retryLoop_all_fail {α β : Type} (errs : Nat → Nat) (validate : α → Bool)
    (transform : α → β) :
    ∀ (remaining attempt : Nat), 0 < remaining →
      retryLoop (fun i => .error (.underlying (errs i))) validate transform attempt remaining
        = ⟨.error (.underlying (errs (attempt + remaining - 1))),
           (List.range (remaining - 1)).map (fun j => (2 : Rat) ^ (attempt + j)), remaining⟩ := by
  intro remaining
  induction remaining with
  | zero => intro attempt h; omega
  | succ r ih =>
    intro attempt _
    rcases Nat.eq_zero_or_pos r with hr | hr
    · subst hr
      simp [retryLoop]
    · have hrise := ih (attempt + 1) hr
      unfold retryLoop
      dsimp only
      rw [if_neg (by omega : ¬ r = 0), hrise,
        show attempt + 1 + r - 1 = attempt + (r + 1) - 1 from by omega]
      congr 1
      rw [show r + 1 - 1 = r from rfl]
      conv_rhs => rw [show r = (r - 1) + 1 from by omega, List.range_succ_eq_map]
      simp only [List.map_cons, List.map_map, Nat.add_zero]
      congr 1
      apply List.map_congr_left
      intro j _
      simp only [Function.comp_apply]
      exact congrArg _ (by omega)

/-- C3 (counterexample).  When every attempt raises, the final attempt
re-raises the UNDERLYING exception unchanged (`raise` with no wrapping);
no `CollectionError{source, cause, attempts}` wrapper exists in the code:
with `max_retries = 3` and a collector that always raises exception 7, the
call fails with exactly that exception, which is not a collection-error
wrapper. -/
theorem c3_counterexample :
    (collect_with_retry (fun _ => .error (.underlying 7)) (fun _ : Nat => true)
        (fun n : Nat => n) 3).result = .error (.underlying 7)
  ∧ (collect_with_retry (fun _ => .error (.underlying 7)) (fun _ : Nat => true)
        (fun n : Nat => n) 3).attempts_made = 3
  ∧ isCollectionError (.underlying 7) = false := by
  refine ⟨?_, ?_, rfl⟩ <;> rfl

/-- C3 (amended).  For every `max_retries ≥ 1` and a collector whose
`collect_data` raises on every invocation, `collect_with_retry` makes
exactly `max_retries` attempts, sleeps exactly `2 ** attempt` seconds
(hence at least `2 ** attempt`) between consecutive attempts, and after
the final attempt fails by re-raising the underlying exception of that
final attempt unchanged — NOT a `CollectionError` wrapper carrying source,
cause and attempt count (source and attempt count appear only in logs). -/
theorem c3_amended (α β : Type) (mr : Nat) (hmr : 1 ≤ mr) (errs : Nat → Nat)
    (validate : α → Bool) (transform : α → β) :
    collect_with_retry (fun i => .error (.underlying (errs i))) validate transform mr
      = ⟨.error (.underlying (errs (mr - 1))),
         (List.range (mr - 1)).map (fun j => (2 : Rat) ^ j), mr⟩ := by
  unfold collect_with_retry
  rw [retryLoop_all_fail errs validate transform mr 0 hmr]
  simp

/-- C3 (witness): the amended theorem applied at `max_retries = 3` with the
attempt index as the raised exception code: three attempts, sleeps `[1, 2]`,
final failure re-raising attempt 2's exception. -/
theorem c3_witness :
    collect_with_retry (α := Nat) (β := Nat) (fun i => .error (.underlying i))
        (fun _ => true) (fun n => n) 3
      = ⟨.error (.underlying 2), [1, 2], 3⟩ := by
  have h := c3_amended Nat Nat 3 (by norm_num) (fun i => i) (fun _ => true) (fun n => n)
  rw [h]
  norm_num [List.range_succ]

lemma processItem_gold_mem (oracle : StoreOracle) (vf : PyDict → DataQualityResult)
    (i j : Nat) (x : PyDict) :
    ((Tier.gold, j) ∈ (processItem oracle vf i x).store_calls ↔
      (j = i ∧ oracle.ok .bronze i = true ∧ oracle.ok .silver i = true ∧
        (vf x).is_valid = true)) := by
  unfold processItem
  rcases hb : oracle.ok Tier.bronze i with _ | _
  · rw [if_pos rfl]
    simp [emptySourceRun]
  · rw [if_neg (by simp)]
    dsimp only
    rcases hs : oracle.ok Tier.silver i with _ | _
    · rw [if_pos rfl]
      simp
    · rw [if_neg (by simp)]
      rcases hv : (vf x).is_valid with _ | _
      · rw [if_neg (by simp)]
        simp [eq_comm]
      · rw [if_pos rfl]
        rcases hg : oracle.ok Tier.gold i with _ | _
        · rw [if_pos rfl]
          simp [eq_comm]
        · rw [if_neg (by simp)]
          simp [eq_comm]

lemma processItems_gold_mem (oracle : StoreOracle) (vf : PyDict → DataQualityResult) :
    ∀ (items : List PyDict) (i j : Nat),
      ((Tier.gold, j) ∈ (processItems oracle vf i items).store_calls ↔
        ∃ k d, items.get? k = some d ∧ j = i + k ∧
          oracle.ok .bronze j = true ∧ oracle.ok .silver j = true ∧
          (vf d).is_valid = true) := by
  intro items
  induction items with
  | nil =>
    intro i j
    simp [processItems, emptySourceRun]
  | cons x xs ih =>
    intro i j
    simp only [processItems, appendRun, List.mem_append]
    constructor
    · rintro (h | h)
      · obtain ⟨hj, hb, hs, hv⟩ := (processItem_gold_mem oracle vf i j x).mp h
        subst hj
        exact ⟨0, x, rfl, by omega, hb, hs, hv⟩
      · obtain ⟨k, d, hget, hj, hb, hs, hv⟩ := (ih (i + 1) j).mp h
        exact ⟨k + 1, d, by simpa using hget, by omega, hb, hs, hv⟩
    · rintro ⟨k, d, hget, hj, hb, hs, hv⟩
      cases k with
      | zero =>
        left
        have hd : d = x := by
          simp only [List.get?] at hget
          exact (Option.some.inj hget).symm
        subst hd
        have hji : j = i := by omega
        subst hji
        exact (processItem_gold_mem oracle vf j j d).mpr ⟨rfl, hb, hs, hv⟩
      | succ k =>
        right
        refine (ih (i + 1) j).mpr ⟨k, d, by simpa using hget, by omega, hb, hs, hv⟩

lemma processItems_gold_count (oracle : StoreOracle) (vf : PyDict → DataQualityResult)
    (hok : ∀ t i, oracle.ok t i = true) :
    ∀ (items : List PyDict) (i : Nat),
      (processItems oracle vf i items).gold_ids.length
        = items.countP (fun d => (vf d).is_valid) := by
  intro items
  induction items with
  | nil =>
    intro i
    simp [processItems, emptySourceRun]
  | cons x xs ih =>
    intro i
    simp only [processItems, appendRun, List.length_append, List.countP_cons]
    unfold processItem
    rw [if_neg (by simp [hok]), if_neg (by simp [hok])]
    rcases hv : (vf x).is_valid with _ | _
    · rw [if_neg (by simp)]
      simp [ih (i + 1), hv]
    · rw [if_pos rfl, if_neg (by simp [hok])]
      simp only [List.length_cons, List.length_nil]
      rw [ih (i + 1)]
      simp [hv]
      omega

lemma processItem_bronze_mem (oracle : StoreOracle) (vf : PyDict → DataQualityResult)
    (i : Nat) (x : PyDict) :
    (Tier.bronze, i) ∈ (processItem oracle vf i x).store_calls := by
  unfold processItem
  rcases hb : oracle.ok Tier.bronze i with _ | _
  · rw [if_pos rfl]; simp [emptySourceRun]
  · rw [if_neg (by simp)]
    dsimp only
    rcases hs : oracle.ok Tier.silver i with _ | _
    · rw [if_pos rfl]; simp
    · rw [if_neg (by simp)]
      rcases hv : (vf x).is_valid with _ | _
      · rw [if_neg (by simp)]; simp
      · rw [if_pos rfl]
        rcases hg : oracle.ok Tier.gold i with _ | _
        · rw [if_pos rfl]; simp
        · rw [if_neg (by simp)]; simp

lemma processItems_bronze_mem (oracle : StoreOracle) (vf : PyDict → DataQualityResult) :
    ∀ (items : List PyDict) (i k : Nat) (d : PyDict), items.get? k = some d →
      (Tier.bronze, i + k) ∈ (processItems oracle vf i items).store_calls := by
  intro items
  induction items with
  | nil => intro i k d h; simp [List.get?] at h
  | cons x xs ih =>
    intro i k d h
    simp only [processItems, appendRun, List.mem_append]
    cases k with
    | zero => left; simpa using processItem_bronze_mem oracle vf i x
    | succ k =>
      right
      have := ih (i + 1) k d (by simpa using h)
      simpa [Nat.add_assoc, Nat.add_comm, Nat.add_left_comm] using this

lemma process_and_store_errors_nil (oracle : String → StoreOracle)
    (vf : String → PyDict → DataQualityResult) :
    ∀ collected, (process_and_store_data oracle vf collected).errors = [] := by
  intro collected
  induction collected with
  | nil => rfl
  | cons p rest ih =>
    obtain ⟨source, items⟩ := p
    unfold process_and_store_data
    split
    · exact ih
    · exact ih

/-- C1 (confirmed).  In every source run of the pipeline:
(a) whenever `store_gold_data` is invoked for an item, that item's quality
result has `is_valid` true (the Silver record just stored carried
validation status "valid"), regardless of storage failures; and (b) when
no store call fails, `store_gold_data` is invoked for an item IF AND ONLY
IF its quality result is valid, and the source's Gold id count — which is
exactly the per-source Gold count reported in the run summary — equals the
number of that source's items judged valid. -/
theorem c1_gold_iff_valid (oracle : StoreOracle) (vf : PyDict → DataQualityResult)
    (items : List PyDict) :
    (∀ j d, items.get? j = some d →
        (Tier.gold, j) ∈ (process_source_data oracle vf items).store_calls →
        (vf d).is_valid = true)
  ∧ ((∀ t i, oracle.ok t i = true) →
      (∀ j d, items.get? j = some d →
          ((Tier.gold, j) ∈ (process_source_data oracle vf items).store_calls ↔
            (vf d).is_valid = true))
    ∧ (process_source_data oracle vf items).gold_ids.length
        = items.countP (fun d => (vf d).is_valid)) := by
  refine ⟨?_, fun hok => ⟨?_, ?_⟩⟩
  · intro j d hget hmem
    rw [process_source_data, processItems_gold_mem] at hmem
    obtain ⟨k, d2, hget2, hj, _, _, hv⟩ := hmem
    have hkj : k = j := by omega
    subst hkj
    rw [hget] at hget2
    rw [Option.some.inj hget2]
    exact hv
  · intro j d hget
    rw [process_source_data, processItems_gold_mem]
    constructor
    · rintro ⟨k, d2, hget2, hj, _, _, hv⟩
      have hkj : k = j := by omega
      subst hkj
      rw [hget] at hget2
      rw [Option.some.inj hget2]
      exact hv
    · intro hv
      exact ⟨j, d, hget, by omega, hok _ _, hok _ _, hv⟩
  · exact processItems_gold_count oracle vf hok items 0

/-- C1 (witness): a run over one valid and one invalid item with a
never-failing store: Gold is invoked for the valid item (index 0) and the
Gold count equals the count of valid items, namely 1. -/
theorem c1_witness :
    ((Tier.gold, 0) ∈ (process_source_data ⟨fun _ _ => true⟩
        (fun d => if d = [] then ⟨false, 0, [], []⟩ else ⟨true, 1, [], []⟩)
        [[("id", PyVal.vint 1)], []]).store_calls)
  ∧ (process_source_data ⟨fun _ _ => true⟩
        (fun d => if d = [] then ⟨false, 0, [], []⟩ else ⟨true, 1, [], []⟩)
        [[("id", PyVal.vint 1)], []]).gold_ids.length = 1 := by
  have h := c1_gold_iff_valid ⟨fun _ _ => true⟩
    (fun d => if d = [] then ⟨false, 0, [], []⟩ else ⟨true, 1, [], []⟩)
    [[("id", PyVal.vint 1)], []]
  constructor
  · exact ((h.2 (fun _ _ => rfl)).1 0 [("id", PyVal.vint 1)] rfl).mpr (by decide)
  · rw [(h.2 (fun _ _ => rfl)).2]
    decide

/-- C5 (counterexample).  A run in which storing the first reddit item's
Bronze record throws: the per-item handler catches it and the next item is
processed to completion (bronze id 1, the store-call log shows the failed
bronze attempt at index 0 followed by the full processing of index 1), the
run completes with layer results — but NOTHING is appended to the run's
error list, which stays empty, contradicting the claim that an error
describing the failure is appended. -/
theorem c5_counterexample :
    (process_and_store_data (fun _ => ⟨fun t i => !(t = Tier.bronze ∧ i = 0 : Bool)⟩)
        (fun _ _ => ⟨true, 1, [], []⟩)
        [("reddit", [[("id", PyVal.vint 1)], [("id", PyVal.vint 2)]])]).errors = []
  ∧ (process_and_store_data (fun _ => ⟨fun t i => !(t = Tier.bronze ∧ i = 0 : Bool)⟩)
        (fun _ _ => ⟨true, 1, [], []⟩)
        [("reddit", [[("id", PyVal.vint 1)], [("id", PyVal.vint 2)]])]).bronze_layer
      = [("reddit", [1])]
  ∧ (process_source_data ((fun _ => ⟨fun t i => !(t = Tier.bronze ∧ i = 0 : Bool)⟩ :
        String → StoreOracle) "reddit") (fun _ => ⟨true, 1, [], []⟩)
        [[("id", PyVal.vint 1)], [("id", PyVal.vint 2)]]).store_calls
      = [(Tier.bronze, 0), (Tier.bronze, 1), (Tier.silver, 1), (Tier.gold, 1)] := by
  refine ⟨rfl, rfl, rfl⟩

/-- C5 (amended).  If storing one item throws (at any tier), the exception
is caught by the per-item handler and processing continues with the next
item — the Bronze store is still attempted for every item of the source —
and the run completes, producing its layer results and summary; however
the caught error is only logged: it is NOT appended to the run's error
list, which receives entries only when a whole source's processing raises
(impossible here since `_process_source_data` catches per-item errors),
and therefore stays empty. -/
theorem c5_amended (oracle : String → StoreOracle)
    (vf : String → PyDict → DataQualityResult)
    (collected : List (String × List PyDict)) :
    (process_and_store_data oracle vf collected).errors = []
  ∧ (∀ s items, (s, items) ∈ collected → ∀ k d, items.get? k = some d →
      (Tier.bronze, k) ∈ (process_source_data (oracle s) (vf s) items).store_calls) := by
  refine ⟨process_and_store_errors_nil oracle vf collected, ?_⟩
  intro s items _ k d hget
  have := processItems_bronze_mem (oracle s) (vf s) items 0 k d hget
  simpa using this

/-- C5 (witness): the amended theorem applied to a one-source, one-item run
with a never-failing store. -/
theorem c5_witness :
    (process_and_store_data (fun _ => ⟨fun _ _ => true⟩)
        (fun _ _ => ⟨true, 1, [], []⟩) [("news", [[("id", PyVal.vint 3)]])]).errors = []
  ∧ (Tier.bronze, 0) ∈ (process_source_data ((fun _ => ⟨fun _ _ => true⟩ :
        String → StoreOracle) "news") ((fun _ _ => ⟨true, 1, [], []⟩ :
        String → PyDict → DataQualityResult) "news")
        [[("id", PyVal.vint 3)]]).store_calls := by
  have h := c5_amended (fun _ => ⟨fun _ _ => true⟩) (fun _ _ => ⟨true, 1, [], []⟩)
    [("news", [[("id", PyVal.vint 3)]])]
  exact ⟨h.1, h.2 "news" [[("id", PyVal.vint 3)]] (by simp) 0 [("id", PyVal.vint 3)] rfl⟩

/-- C2 (confirmed).  `collect_all_data` over a registry of three distinctly
named sources, all configured, where exactly one source's
`collect_with_retry` raises and the other two succeed: the call returns
normally (no exception escapes), the result map has exactly the three
source keys in registry order, the failing source maps to the empty list,
the run's failed-collectors list contains exactly that source's name, and
each succeeding source maps to exactly the list its collector returned,
unchanged in content and order. -/
theorem c2_partial_failure_isolated (α : Type) (n : Fin 3 → String)
    (p : Fin 3 → CollectionParams) (b : Fin 3 → Except Unit (List α))
    (xs : Fin 3 → List α) (j : Fin 3)
    (hinj : Function.Injective n)
    (hfail : b j = .error ())
    (hok : ∀ i, i ≠ j → b i = .ok (xs i)) :
    collect_all_data [(n 0, fun _ => b 0), (n 1, fun _ => b 1), (n 2, fun _ => b 2)]
        [(n 0, p 0), (n 1, p 1), (n 2, p 2)]
      = some ([(n 0, if 0 = j then [] else xs 0),
               (n 1, if 1 = j then [] else xs 1),
               (n 2, if 2 = j then [] else xs 2)], [n j]) := by
  have ne10 : (n 1 == n 0) = false :=
    beq_eq_false_iff_ne.mpr (fun h => absurd (hinj h) (by decide))
  have ne20 : (n 2 == n 0) = false :=
    beq_eq_false_iff_ne.mpr (fun h => absurd (hinj h) (by decide))
  have ne21 : (n 2 == n 1) = false :=
    beq_eq_false_iff_ne.mpr (fun h => absurd (hinj h) (by decide))
  fin_cases j
  · have h1 : b 1 = .ok (xs 1) := hok 1 (by decide)
    have h2 : b 2 = .ok (xs 2) := hok 2 (by decide)
    have hf : b 0 = Except.error () := hfail
    simp [collect_all_data, gatherLoop, List.lookup, ne10, ne20, ne21,
      beq_self_eq_true, hf, h1, h2, List.filter]
  · have h0 : b 0 = .ok (xs 0) := hok 0 (by decide)
    have h2 : b 2 = .ok (xs 2) := hok 2 (by decide)
    have hf : b 1 = Except.error () := hfail
    simp [collect_all_data, gatherLoop, List.lookup, ne10, ne20, ne21,
      beq_self_eq_true, hf, h0, h2, List.filter]
  · have h0 : b 0 = .ok (xs 0) := hok 0 (by decide)
    have h1 : b 1 = .ok (xs 1) := hok 1 (by decide)
    have hf : b 2 = Except.error () := hfail
    simp [collect_all_data, gatherLoop, List.lookup, ne10, ne20, ne21,
      beq_self_eq_true, hf, h0, h1, List.filter]

/-- C2 (witness): three concretely named sources with the middle one always
failing — three result keys in order, empty list for the failed source,
exactly one failed-collectors entry, the two successes untouched. -/
theorem c2_witness :
    collect_all_data (α := Nat)
        [("alpha", fun _ => Except.ok [1]),
         ("beta", fun _ => Except.error ()), ("gamma", fun _ => Except.ok [3])]
        [("alpha", ⟨none, none, 10⟩), ("beta", ⟨none, none, 10⟩), ("gamma", ⟨none, none, 10⟩)]
      = some ([("alpha", [1]), ("beta", []), ("gamma", [3])], ["beta"]) := by
  have h := c2_partial_failure_isolated Nat
    (fun i => ["alpha", "beta", "gamma"].get i)
    (fun _ => ⟨none, none, 10⟩)
    (fun i => [Except.ok [1], Except.error (), Except.ok [3]].get i)
    (fun i => [[1], [], [3]].get i)
    1 (by decide) rfl (by decide)
  simpa using h

lemma ratioOf_nonneg (checks : List Bool) : 0 ≤ ratioOf checks := by
  unfold ratioOf
  split
  · positivity
  · exact le_refl 0

lemma ratioOf_le_one (checks : List Bool) : ratioOf checks ≤ 1 := by
  unfold ratioOf
  split
  · next h =>
    rw [div_le_one (by exact_mod_cast h)]
    exact_mod_cast List.countP_le_length id
  · exact zero_le_one

lemma check_reddit_data_types_bounds (data : PyDict) :
    0 ≤ check_reddit_data_types data ∧ check_reddit_data_types data ≤ 1 := by
  unfold check_reddit_data_types
  exact ⟨ratioOf_nonneg _, ratioOf_le_one _⟩

lemma check_reddit_content_quality_bounds (data : PyDict) (q : Rat)
    (h : check_reddit_content_quality data = .ok q) : 0 ≤ q ∧ q ≤ 1 := by
  unfold check_reddit_content_quality at h
  rcases ht : data.lookup "title" with _ | v
  · rw [ht] at h
    simp only [bind, Except.bind, pure, Except.pure] at h
    obtain rfl := (Except.ok.inj h).symm
    exact ⟨ratioOf_nonneg _, ratioOf_le_one _⟩
  · rw [ht] at h
    dsimp only at h
    by_cases htr : pyTruthy v
    · rw [if_pos htr] at h
      rcases hl : pyLen v with e | len
      · rw [hl] at h
        simp [bind, Except.bind] at h
      · rw [hl] at h
        simp only [bind, Except.bind, pure, Except.pure] at h
        obtain rfl := (Except.ok.inj h).symm
        exact ⟨ratioOf_nonneg _, ratioOf_le_one _⟩
    · rw [if_neg htr] at h
      simp only [bind, Except.bind, pure, Except.pure] at h
      obtain rfl := (Except.ok.inj h).symm
      exact ⟨ratioOf_nonneg _, ratioOf_le_one _⟩

lemma check_completeness_required_absent (data : PyDict) (req opt : List String)
    (h : ∀ f ∈ req, fieldPresent data f = false) :
    0 ≤ check_completeness data req opt ∧ check_completeness data req opt ≤ 3/10 := by
  unfold check_completeness
  split
  · norm_num
  · dsimp only
    have hreq : List.countP (fun f => fieldPresent data f) req = 0 :=
      List.countP_eq_zero.mpr (by intro f hf; simpa using h f hf)
    rw [hreq]
    have hr0 : (if req.length > 0 then ((0 : Nat) : Rat) / req.length else 0) = 0 := by
      split <;> simp
    rw [hr0]
    have hopt : 0 ≤ (if opt.length > 0 then
        ((List.countP (fun f => fieldPresent data f) opt : Nat) : Rat) / opt.length else 0) ∧
        (if opt.length > 0 then
        ((List.countP (fun f => fieldPresent data f) opt : Nat) : Rat) / opt.length else 0) ≤ 1 := by
      split
      · next hl =>
        constructor
        · positivity
        · rw [div_le_one (by exact_mod_cast hl)]
          exact_mod_cast List.countP_le_length (fun f => fieldPresent data f)
      · norm_num
    constructor
    · nlinarith [hopt.1, hopt.2]
    · nlinarith [hopt.1, hopt.2]

lemma pyGet_of_not_fieldPresent (data : PyDict) (f : String)
    (h : fieldPresent data f = false) : pyGet data f = .vnone := by
  unfold fieldPresent at h
  unfold pyGet
  rcases hl : data.lookup f with _ | v
  · rfl
  · rw [hl] at h
    simp only [decide_eq_false_iff_not, not_not] at h
    simp [h]

/-- C9 (amended).  For every Reddit item missing all of the source kind's
required fields, `validate_reddit_data` yields `is_valid = false` — the
score cannot reach the 0.8 threshold, because completeness is capped at
0.3, the timeliness sub-score is 0 (`created_utc` is itself a required
field, so it is absent), and the other two sub-scores are at most 1 — but
the quality score need NOT be 0.0: optional fields can contribute, so the
score is 0.0 only for an item with no contributing fields at all (in
particular the empty item). -/
theorem c9_missing_required_invalid (now : Rat) (parse : ParseFun) (data : PyDict)
    (h : ∀ f ∈ reddit_required, fieldPresent data f = false) :
    (validate_reddit_data now parse data).is_valid = false
  ∧ (data = [] → (validate_reddit_data now parse data).quality_score = 0) := by
  unfold validate_reddit_data
  rcases hc : check_reddit_content_quality data with e | q
  · exact ⟨rfl, fun _ => rfl⟩
  · dsimp only
    have hcu : fieldPresent data "created_utc" = false := h "created_utc" (by decide)
    have htl : check_timeliness now parse (pyGet data "created_utc") = 0 := by
      rw [pyGet_of_not_fieldPresent data "created_utc" hcu]
      rfl
    have hcomp := check_completeness_required_absent data reddit_required reddit_optional h
    have hty := check_reddit_data_types_bounds data
    have hcq := check_reddit_content_quality_bounds data q hc
    constructor
    · rw [htl]
      apply decide_eq_false
      rw [completeness_threshold]
      intro hge
      nlinarith [hcomp.1, hcomp.2, hty.1, hty.2, hcq.1, hcq.2]
    · intro hdata
      subst hdata
      have hq0 : q = 0 := by
        have : check_reddit_content_quality [] = Except.ok 0 := rfl
        rw [this] at hc
        exact (Except.ok.inj hc).symm
      rw [htl, hq0]
      have hc0 : check_completeness [] reddit_required reddit_optional = 0 := rfl
      have ht0 : check_reddit_data_types [] = 0 := rfl
      rw [hc0, ht0]
      norm_num

/-- C9 (counterexample).  A Reddit item missing every required field but
carrying the optional field `num_comments`: the quality score is 3/160
(the optional completeness term contributes), not 0.0 as claimed;
`is_valid` is still false. -/
theorem c9_counterexample :
    List.all reddit_required
        (fun f => !fieldPresent [("num_comments", PyVal.vint 5)] f) = true
  ∧ (validate_reddit_data 0 (fun _ => none) [("num_comments", PyVal.vint 5)]).quality_score
      = 3/160
  ∧ ¬ ((3 : Rat)/160 = 0)
  ∧ (validate_reddit_data 0 (fun _ => none) [("num_comments", PyVal.vint 5)]).is_valid
      = false := by
  have hcc : check_completeness [("num_comments", PyVal.vint 5)] reddit_required reddit_optional
      = 3/40 := by
    have h1 : List.countP (fun f => fieldPresent [("num_comments", PyVal.vint 5)] f)
        reddit_required = 0 := by decide
    have h2 : List.countP (fun f => fieldPresent [("num_comments", PyVal.vint 5)] f)
        reddit_optional = 1 := by decide
    simp only [check_completeness, h1, h2]
    rw [if_neg (by decide)]
    norm_num [reddit_required, reddit_optional]
  have hty : check_reddit_data_types [("num_comments", PyVal.vint 5)] = 0 := rfl
  have hcq : check_reddit_content_quality [("num_comments", PyVal.vint 5)] = Except.ok 0 := rfl
  have htl : check_timeliness 0 (fun _ => none)
      (pyGet [("num_comments", PyVal.vint 5)] "created_utc") = 0 := rfl
  have hscore : (validate_reddit_data 0 (fun _ => none)
      [("num_comments", PyVal.vint 5)]).quality_score = 3/160 := by
    unfold validate_reddit_data
    rw [hcq]
    dsimp only
    rw [hcc, hty, htl]
    norm_num
  refine ⟨by decide, hscore, by norm_num, ?_⟩
  unfold validate_reddit_data
  rw [hcq]
  dsimp only
  rw [hcc, hty, htl]
  apply decide_eq_false
  rw [completeness_threshold]
  norm_num

/-- C9 (witness): the amended theorem applied to the same concrete item —
missing all required fields forces invalidity. -/
theorem c9_witness :
    (validate_reddit_data 0 (fun _ => none) [("num_comments", PyVal.vint 6)]).is_valid
      = false := by
  exact (c9_missing_required_invalid 0 (fun _ => none) [("num_comments", PyVal.vint 6)]
    (by decide)).1
